import Mathlib

/-!
Shallow embedding of the merinfo-mcp fetch/cache subsystem.

Each definition mirrors one function of the TypeScript source:
  * `src/types.ts`                — data model (`CompanyData`, `PersonDetails`, …)
  * `src/utils/validators.ts`     — `OrgNumberSchema` (zod regex + transform)
  * `src/utils/parsers.ts`        — `normalizeOrgNumber`
  * `src/utils/rate-limiter.ts`   — `BackoffStrategy.getDelay`, `withRetry`
  * `src/cache/database.ts`       — `saveCompany`, `getCompany`, `saveBoardMembers`,
                                    `getBoardMembers`, `isCacheStale`, `rowToCompany`
  * `src/server/tools.ts`         — the cache-or-fetch decision and the persistence
                                    step of `searchCompanyByOrgNumber`
  * `src/scraper/merinfo.ts`      — `searchCompany`, `doScrape`, `scrapeCompany`
  * `src/scraper/browser.ts`      — `acquireContext`, `releaseContext`,
                                    `cleanupOldContexts`

JavaScript-specific semantics (falsiness of `0`, `""`, `null`/`undefined` in
`x || null` expressions, `Boolean(n)`, truthiness tests) are made explicit by
the `js*` helper functions below.  Timestamps are `Nat` milliseconds, ages in
days are `ℚ` (SQLite `julianday` differences are fractional reals), monetary
amounts are `Int`.
-/

namespace Merinfo

/-! ## JavaScript value helpers -/

/-- Semantics of the JS expression `s || null` for an optional string:
`undefined`, `null` and the empty string (falsy) all become `null`. -/
def jsStrOrNull : Option String → Option String
  | none => none
  | some s => if s = "" then none else some s

/-- Semantics of the JS expression `n || null` for an optional number:
`undefined`, `null` and `0` (falsy) all become `null`. -/
def jsIntOrNull : Option Int → Option Int
  | none => none
  | some n => if n = 0 then none else some n

/-- Semantics of the JS expression `n || null` for an optional natural. -/
def jsNatOrNull : Option Nat → Option Nat
  | none => none
  | some n => if n = 0 then none else some n

/-- Semantics of the JS expression `s || d` for a string with default `d`. -/
def jsStrOrDefault (s : Option String) (d : String) : String :=
  match s with
  | none => d
  | some s => if s = "" then d else s

/-- Truthiness of a nullable number (as in `row.revenue ? … : undefined`):
truthy exactly when present and nonzero. -/
def jsTruthyInt : Option Int → Bool
  | none => false
  | some n => n != 0

/-! ## Data model (`src/types.ts`) -/

structure ContactInfo where
  phone : Option String
  address : Option String
  postal_code : Option String
  city : Option String
  municipality : Option String
  county : Option String
deriving DecidableEq, Repr

structure TaxInfo where
  f_skatt : Bool
  vat_registered : Bool
  employer_registered : Bool
deriving DecidableEq, Repr

structure FinancialData where
  period : Option String
  revenue : Option Int
  profit_after_financial : Option Int
  net_profit : Option Int
  total_assets : Option Int
  currency : String
deriving DecidableEq, Repr

structure IndustryInfo where
  sni_code : Option String
  sni_description : Option String
  categories : Option (List String)
  activity_description : Option String
deriving DecidableEq, Repr

structure CompanyData where
  org_number : String
  name : String
  legal_form : Option String
  status : Option String
  registration_date : Option String
  contact : ContactInfo
  tax_info : TaxInfo
  financials : Option FinancialData
  industry : IndustryInfo
  bankgiro_number : Option String
  has_remarks : Bool
  remarks : Option String
  source_url : String
  scraped_at : String
  updated_at : Option String
deriving DecidableEq, Repr

structure PersonAddress where
  street : Option String
  apartment : Option String
  postal_code : Option String
  city : Option String
deriving DecidableEq, Repr

structure PersonDetails where
  org_number : String
  name : String
  role : String
  personal_number : Option String
  age : Option Nat
  phone : Option String
  address : PersonAddress
  profile_url : Option String
  scraped_at : Option String
deriving DecidableEq, Repr

/-! ## Key validation (`src/utils/validators.ts`, `OrgNumberSchema`)

The zod schema first matches the input against the regular expression
`^\d{6}-?\d{4}$` and, on success, transforms it by stripping every
non-digit and re-inserting the hyphen after the sixth digit. -/

/-- The regular expression `^\d{6}-?\d{4}$`: either ten digits, or six
digits, a hyphen at position 6, and four more digits — nothing else. -/
def orgRegexMatch (s : List Char) : Bool :=
  ((s.take 6).all Char.isDigit && (s.drop 6).all Char.isDigit
      && s.length == 10) ||
    ((s.take 6).all Char.isDigit && (s.drop 6).take 1 == ['-']
      && (s.drop 7).all Char.isDigit && s.length == 11)

/-- The digits kept by `val.replace(/[^0-9]/g, '')`. -/
def keptDigits (s : List Char) : List Char :=
  s.filter Char.isDigit

/-- The zod `.transform`: strip non-digits, then `cleaned.slice(0,6) + "-" +
cleaned.slice(6)`. -/
def orgTransform (s : List Char) : List Char :=
  let cleaned := keptDigits s
  cleaned.take 6 ++ '-' :: cleaned.drop 6

/-- `OrgNumberSchema.parse`: `none` models a zod validation failure. -/
def OrgNumberSchema (s : String) : Option String :=
  if orgRegexMatch s.data then some (String.mk (orgTransform s.data)) else none

/-- `normalizeOrgNumber` from `src/utils/parsers.ts`: strip every non-digit;
exactly 10 digits are required (otherwise the function throws, modelled as
`none`); render as `XXXXXX-XXXX`. -/
def normalizeOrgNumber (s : String) : Option String :=
  let cleaned := keptDigits s.data
  if cleaned.length = 10 then
    some (String.mk (cleaned.take 6 ++ '-' :: cleaned.drop 6))
  else none

/-! ## Freshness policy (`src/cache/database.ts` `isCacheStale` +
`src/server/tools.ts` `searchCompanyByOrgNumber`, cache branch)

`isCacheStale` computes `julianday('now') - julianday(scraped_at)` for the
row, if any, and reports stale when there is no row or the age strictly
exceeds the threshold.  The tool serves the cached record only when a record
exists, `force_refresh` is not set, and the record is not stale. -/

/-- Result of the serve-cached versus scrape-fresh decision. -/
inductive FreshnessDecision where
  | serve (c : CompanyData) : FreshnessDecision
  | fetch : FreshnessDecision
deriving DecidableEq, Repr

/-- `isCacheStale org stale_days`: the SQL query yields the row's fractional
age in days when the row exists (`ageDays = some a`) and nothing otherwise;
the result is `!row || row.age_days > stale_days`. -/
def isCacheStale (ageDays : Option ℚ) (staleDays : ℚ) : Bool :=
  match ageDays with
  | none => true
  | some a => decide (staleDays < a)

/-- Default `cache_stale_days` from `DEFAULT_CONFIG` (`src/types.ts`). -/
def cacheStaleDays : ℚ := 7

/-- The cache branch of `searchCompanyByOrgNumber`: `cached` carries the
stored record together with its age in days when a row exists.  Mirrors
`const is_stale = cached ? isCacheStale(...) : true` followed by
`if (cached && !force_refresh && !is_stale) … else scrape`. -/
def decideFreshness (staleDays : ℚ) (cached : Option (CompanyData × ℚ))
    (forceRefresh : Bool) : FreshnessDecision :=
  let is_stale : Bool :=
    match cached with
    | some e => isCacheStale (some e.2) staleDays
    | none => true
  match cached with
  | some e =>
      if forceRefresh = false ∧ is_stale = false then .serve e.1 else .fetch
  | none => .fetch

/-! ## Companies table (`src/cache/schema.ts` + `src/cache/database.ts`)

One row of the `companies` table.  Nullable SQL columns are `Option`;
`INTEGER` flag columns hold the literal `0`/`1` written by `saveCompany`;
the `categories` column stores `JSON.stringify(list)` and is modelled by the
list itself (the stringified form of a list is never the empty string, so
its JS truthiness in `rowToCompany` is always `true`). -/

structure CompanyRow where
  org_number : String
  name : String
  legal_form : Option String
  status : Option String
  registration_date : Option String
  phone : Option String
  address : Option String
  postal_code : Option String
  city : Option String
  municipality : Option String
  county : Option String
  f_skatt : Nat
  vat_registered : Nat
  employer_registered : Nat
  financial_period : Option String
  revenue : Option Int
  profit_after_financial : Option Int
  net_profit : Option Int
  total_assets : Option Int
  currency : String
  sni_code : Option String
  sni_description : Option String
  categories : List String
  activity_description : Option String
  bankgiro_number : Option String
  has_remarks : Nat
  remarks : Option String
  source_url : String
  scraped_at : String
  updated_at : String
deriving DecidableEq, Repr

/-- The companies table, keyed by `org_number` (the primary key). -/
def CompanyTable := String → Option CompanyRow

/-- The parameter list of the `INSERT` statement in `saveCompany`: each bound
value with its JS coercion (`x || null`, `b ? 1 : 0`, `…?.f || null`,
`currency || 'SEK'`, `categories || []`); `now` is `new Date().toISOString()`
bound to `updated_at`. -/
def companyToRow (c : CompanyData) (now : String) : CompanyRow where
  org_number := c.org_number
  name := c.name
  legal_form := jsStrOrNull c.legal_form
  status := jsStrOrNull c.status
  registration_date := jsStrOrNull c.registration_date
  phone := jsStrOrNull c.contact.phone
  address := jsStrOrNull c.contact.address
  postal_code := jsStrOrNull c.contact.postal_code
  city := jsStrOrNull c.contact.city
  municipality := jsStrOrNull c.contact.municipality
  county := jsStrOrNull c.contact.county
  f_skatt := if c.tax_info.f_skatt then 1 else 0
  vat_registered := if c.tax_info.vat_registered then 1 else 0
  employer_registered := if c.tax_info.employer_registered then 1 else 0
  financial_period := jsStrOrNull (c.financials.bind (·.period))
  revenue := jsIntOrNull (c.financials.bind (·.revenue))
  profit_after_financial := jsIntOrNull (c.financials.bind (·.profit_after_financial))
  net_profit := jsIntOrNull (c.financials.bind (·.net_profit))
  total_assets := jsIntOrNull (c.financials.bind (·.total_assets))
  currency := jsStrOrDefault (c.financials.map (·.currency)) "SEK"
  sni_code := jsStrOrNull c.industry.sni_code
  sni_description := jsStrOrNull c.industry.sni_description
  categories := c.industry.categories.getD []
  activity_description := jsStrOrNull c.industry.activity_description
  bankgiro_number := jsStrOrNull c.bankgiro_number
  has_remarks := if c.has_remarks then 1 else 0
  remarks := jsStrOrNull c.remarks
  source_url := c.source_url
  scraped_at := c.scraped_at
  updated_at := now

/-- The `ON CONFLICT(org_number) DO UPDATE SET` clause of `saveCompany`,
applied to the existing row and the `excluded` (newly bound) row.  Exactly
the columns named in the `SET` list are taken from `excluded`; `org_number`
(the key) and `scraped_at` are not in that list and keep their old values. -/
def upsertCompanyRow (old excluded : CompanyRow) : CompanyRow :=
  { old with
    name := excluded.name
    legal_form := excluded.legal_form
    status := excluded.status
    registration_date := excluded.registration_date
    phone := excluded.phone
    address := excluded.address
    postal_code := excluded.postal_code
    city := excluded.city
    municipality := excluded.municipality
    county := excluded.county
    f_skatt := excluded.f_skatt
    vat_registered := excluded.vat_registered
    employer_registered := excluded.employer_registered
    financial_period := excluded.financial_period
    revenue := excluded.revenue
    profit_after_financial := excluded.profit_after_financial
    net_profit := excluded.net_profit
    total_assets := excluded.total_assets
    currency := excluded.currency
    sni_code := excluded.sni_code
    sni_description := excluded.sni_description
    categories := excluded.categories
    activity_description := excluded.activity_description
    bankgiro_number := excluded.bankgiro_number
    has_remarks := excluded.has_remarks
    remarks := excluded.remarks
    source_url := excluded.source_url
    updated_at := excluded.updated_at }

/-- `saveCompany`: insert the bound row, or on a primary-key conflict apply
the `DO UPDATE SET` clause to the existing row. -/
def saveCompany (table : CompanyTable) (c : CompanyData) (now : String) :
    CompanyTable := fun o =>
  if o = c.org_number then
    match table c.org_number with
    | none => some (companyToRow c now)
    | some old => some (upsertCompanyRow old (companyToRow c now))
  else table o

/-- `rowToCompany` (private helper of `CompanyDatabase`): the financial
snapshot is reconstructed only when `row.revenue` is truthy. -/
def rowToCompany (row : CompanyRow) : CompanyData where
  org_number := row.org_number
  name := row.name
  legal_form := row.legal_form
  status := row.status
  registration_date := row.registration_date
  contact :=
    ⟨row.phone, row.address, row.postal_code, row.city, row.municipality,
      row.county⟩
  tax_info :=
    ⟨row.f_skatt != 0, row.vat_registered != 0, row.employer_registered != 0⟩
  financials :=
    if jsTruthyInt row.revenue then
      some ⟨row.financial_period, row.revenue, row.profit_after_financial,
        row.net_profit, row.total_assets,
        if row.currency = "" then "SEK" else row.currency⟩
    else none
  industry :=
    ⟨row.sni_code, row.sni_description, some row.categories,
      row.activity_description⟩
  bankgiro_number := row.bankgiro_number
  has_remarks := row.has_remarks != 0
  remarks := row.remarks
  source_url := row.source_url
  scraped_at := row.scraped_at
  updated_at := some row.updated_at

/-- `getCompany`: select the row by key and convert it. -/
def getCompany (table : CompanyTable) (org : String) : Option CompanyData :=
  (table org).map rowToCompany

/-! ## People table (`saveBoardMembers`, `getBoardMembers`) -/

/-- One row of the `people` table (the `AUTOINCREMENT` surrogate `id` plays
no role in any operation modelled here and is omitted). -/
structure PersonRow where
  org_number : String
  name : String
  role : String
  personal_number : Option String
  age : Option Nat
  phone : Option String
  street : Option String
  apartment : Option String
  postal_code : Option String
  city : Option String
  profile_url : Option String
  scraped_at : String
deriving DecidableEq, Repr

/-- The parameter list of the `INSERT` in `saveBoardMembers` for one member
(note the row key is `member.org_number`, not the `org_number` argument);
`now` models `new Date().toISOString()` in `scraped_at || now`. -/
def personToRow (m : PersonDetails) (now : String) : PersonRow where
  org_number := m.org_number
  name := m.name
  role := m.role
  personal_number := jsStrOrNull m.personal_number
  age := jsNatOrNull m.age
  phone := jsStrOrNull m.phone
  street := jsStrOrNull m.address.street
  apartment := jsStrOrNull m.address.apartment
  postal_code := jsStrOrNull m.address.postal_code
  city := jsStrOrNull m.address.city
  profile_url := jsStrOrNull m.profile_url
  scraped_at := jsStrOrDefault m.scraped_at now

/-- `saveBoardMembers`: always delete the existing rows for `org_number`
first; when the member list is empty, return right after the delete;
otherwise insert a row per member. -/
def saveBoardMembers (table : List PersonRow) (org : String)
    (members : List PersonDetails) (now : String) : List PersonRow :=
  let afterDelete := table.filter (fun r => r.org_number != org)
  if members.length = 0 then afterDelete
  else afterDelete ++ members.map (fun m => personToRow m now)

/-- `rowToPerson` (private helper of `CompanyDatabase`). -/
def rowToPerson (row : PersonRow) : PersonDetails where
  org_number := row.org_number
  name := row.name
  role := row.role
  personal_number := row.personal_number
  age := row.age
  phone := row.phone
  address := ⟨row.street, row.apartment, row.postal_code, row.city⟩
  profile_url := row.profile_url
  scraped_at := some row.scraped_at

/-- `getBoardMembers`: select the rows for the company and convert them. -/
def getBoardMembers (table : List PersonRow) (org : String) :
    List PersonDetails :=
  (table.filter (fun r => r.org_number == org)).map rowToPerson

/-- The persistence step of `searchCompanyByOrgNumber` (`src/server/tools.ts`
lines 44–48): the company is always saved; the board members are saved only
when board data was requested *and* the fetched list is non-empty. -/
def searchToolPersist (companies : CompanyTable) (people : List PersonRow)
    (org : String) (includeBoard : Bool) (company : CompanyData)
    (boardMembers : List PersonDetails) (now : String) :
    CompanyTable × List PersonRow :=
  let companies1 := saveCompany companies company now
  let people1 :=
    if includeBoard = true ∧ boardMembers.length > 0 then
      saveBoardMembers people org boardMembers now
    else people
  (companies1, people1)

/-! ## Backoff (`src/utils/rate-limiter.ts`, `BackoffStrategy.getDelay`)

`baseDelay = min(initial * multiplier^(attempt-1), maxDelay)`; with jitter
enabled the result is `max(0, baseDelay + (2r - 1) * 0.25 * baseDelay)` for
one uniform draw `r = Math.random() ∈ [0,1)`. -/

/-- `BackoffStrategy.getDelay` with the random draw `r` made explicit. -/
def getDelay (initialDelayMs maxDelayMs multiplier : ℚ) (jitterOn : Bool)
    (attempt : Nat) (r : ℚ) : ℚ :=
  let baseDelay := min (initialDelayMs * multiplier ^ (attempt - 1)) maxDelayMs
  if jitterOn = false then baseDelay
  else
    let jitterAmount := baseDelay * (1 / 4)
    let jitter := r * jitterAmount * 2 - jitterAmount
    max 0 (baseDelay + jitter)

/-- The constructor defaults of `BackoffStrategy` used by `withRetry`:
initial 2000 ms, ceiling 30000 ms, multiplier 2, jitter on. -/
def defaultGetDelay (attempt : Nat) (r : ℚ) : ℚ :=
  getDelay 2000 30000 2 true attempt r

/-! ## Scrape failures and the navigation steps (`src/scraper/merinfo.ts`)

The relevant error values thrown inside a scrape attempt.  JS dispatches on
`error.name`; `ScraperError` additionally carries a `retryable` field that is
set at the throw site. -/

inductive ScrapeFailure where
  /-- `NoSuchCompanyError` (name `NoSuchCompanyError`). -/
  | noSuchCompany : ScrapeFailure
  /-- `ScraperError('Company … has warning remarks', false)`. -/
  | flaggedRemarks : ScrapeFailure
  /-- `ScraperError('Search limit reached on merinfo.se', true)`. -/
  | searchLimit : ScrapeFailure
  /-- a Playwright `TimeoutError` from a navigation/selector wait. -/
  | timeout : ScrapeFailure
deriving DecidableEq, Repr

/-- The JS `error.name` of each failure, which is all `withRetry` inspects. -/
def errorName : ScrapeFailure → String
  | .noSuchCompany => "NoSuchCompanyError"
  | .flaggedRemarks => "ScraperError"
  | .searchLimit => "ScraperError"
  | .timeout => "TimeoutError"

/-- The `retryable` constructor argument of the two `ScraperError` throw
sites (`none` for errors that are not `ScraperError`s). -/
def scraperErrorRetryableArg : ScrapeFailure → Option Bool
  | .noSuchCompany => none
  | .flaggedRemarks => some false
  | .searchLimit => some true
  | .timeout => none

/-- What one rendered search/detail interaction can show, abstracting the
Playwright waits of `searchCompany`/`doScrape`:
`resultsRendered` — the result-card container selector appeared in time;
`matchingCard` — a card whose text holds the queried org number appeared;
`warningOnCard` — the red `anmärka på` remark indicator is on that card;
`companyLink` — the `/foretag/` href of the card, when present;
`limitTextPresent` — the body contains `Oops, din sökgräns är nådd!`;
`detailData` — the company the detail-page extraction would produce, or
`none` when that navigation/parse fails (a `TimeoutError`);
`boardData` — the people the board-scrape step would produce. -/
structure SearchPage where
  resultsRendered : Bool
  matchingCard : Bool
  warningOnCard : Bool
  companyLink : Option String
  limitTextPresent : Bool
  detailData : Option CompanyData
  boardData : List PersonDetails
deriving DecidableEq, Repr

/-- `DEFAULT_CONFIG.enable_person_details` (default `true`). -/
def enablePersonDetails : Bool := true

def baseUrl : String := "https://www.merinfo.se"

/-- The absolutisation `href.startsWith('http') ? href : BASE_URL + href`
(string primitives spelled out over the character list). -/
def absolutiseHref (href : String) : String :=
  if href.data.take 4 = "http".data then href
  else String.mk (baseUrl.data ++ href.data)

/-- `searchCompany`: a missing result container or missing matching card is
caught and returns `null`; a warning indicator on the card throws the
non-retryable-flagged `ScraperError` (rethrown past the local catch); a
missing link returns `null`; otherwise the (absolutised) company URL. -/
def searchCompany (p : SearchPage) : Except ScrapeFailure (Option String) :=
  if p.resultsRendered = false then .ok none
  else if p.matchingCard = false then .ok none
  else if p.warningOnCard = true then .error .flaggedRemarks
  else
    match p.companyLink with
    | none => .ok none
    | some href => .ok (some (absolutiseHref href))

/-- Result of one `doScrape` call, together with whether control reached the
detail-scrape step (`scrapeCompanyPage`). -/
structure DoScrapeRun where
  result : Except ScrapeFailure (CompanyData × List PersonDetails)
  enteredDetailScrape : Bool
deriving Repr

/-- `doScrape`: search; a `null` URL throws `NoSuchCompanyError`; then the
search-limit check throws the retryable `ScraperError`; then the detail page
is scraped (failure there is a `TimeoutError`), and board members are
scraped when requested and enabled. -/
def doScrape (p : SearchPage) (includeBoard : Bool) : DoScrapeRun :=
  match searchCompany p with
  | .error e => ⟨.error e, false⟩
  | .ok none => ⟨.error .noSuchCompany, false⟩
  | .ok (some _) =>
      if p.limitTextPresent = true then ⟨.error .searchLimit, false⟩
      else
        match p.detailData with
        | none => ⟨.error .timeout, true⟩
        | some company =>
            let boardMembers :=
              if includeBoard && enablePersonDetails then p.boardData else []
            ⟨.ok (company, boardMembers), true⟩

/-! ## Retry wrapper (`src/utils/rate-limiter.ts`, `withRetry`)

`withRetry` loops `attempt = 1 … maxAttempts`; on failure it rethrows when
the attempt is the last one or `error.name` is not in `retryableErrors`, and
otherwise calls `onRetry(attempt, error)` and backs off before looping.
`scrapeCompany` passes `onRetry` = restart the browser pool when
`attempt >= 2`.  The callback is modelled by the number of pool restarts it
performs for a given failed attempt. -/

/-- Observable outcome of a `withRetry` run: the final result, how many
times the operation was invoked, and how many pool restarts the `onRetry`
callback performed. -/
structure RetryRun (α : Type) where
  result : Except ScrapeFailure α
  attemptsMade : Nat
  poolRestarts : Nat
deriving Repr

/-- The `onRetry` callback `scrapeCompany` passes to `withRetry`: restart
the pool once when the failed attempt number is at least 2. -/
def scrapeOnRetryRestarts (attempt : Nat) : Nat :=
  if 2 ≤ attempt then 1 else 0

/-- The retry loop from `attempt`, with `fuel` bounding the remaining
retries (`withRetry` always runs it with `fuel = maxAttempts - attempt`, so
the fuel-exhausted branch is never taken on its own). -/
def withRetryAux (α : Type) (op : Nat → Except ScrapeFailure α)
    (maxAttempts : Nat) (retryableErrors : List String)
    (onRetryRestarts : Nat → Nat) : Nat → Nat → RetryRun α
  | attempt, fuel =>
    match op attempt with
    | .ok v => ⟨.ok v, 1, 0⟩
    | .error e =>
        if attempt = maxAttempts ∨ retryableErrors.contains (errorName e) = false
        then ⟨.error e, 1, 0⟩
        else
          match fuel with
          | 0 => ⟨.error e, 1, 0⟩
          | fuel' + 1 =>
              let rest := withRetryAux α op maxAttempts retryableErrors
                onRetryRestarts (attempt + 1) fuel'
              ⟨rest.result, rest.attemptsMade + 1,
                rest.poolRestarts + onRetryRestarts attempt⟩

/-- `withRetry` itself, starting at attempt 1. -/
def withRetry (α : Type) (op : Nat → Except ScrapeFailure α)
    (maxAttempts : Nat) (retryableErrors : List String)
    (onRetryRestarts : Nat → Nat) : RetryRun α :=
  withRetryAux α op maxAttempts retryableErrors onRetryRestarts 1
    (maxAttempts - 1)

/-- The retryable-error names `scrapeCompany` configures. -/
def scrapeRetryableErrors : List String := ["ScraperError", "TimeoutError"]

/-- `scrapeCompany`'s use of `withRetry`: `maxAttempts = 3`, the error-name
list above, and the restart-at-attempt-≥-2 callback; every attempt re-runs
`doScrape` against the same rendered-page behaviour `p`. -/
def scrapeCompanyRun (p : SearchPage) (includeBoard : Bool) :
    RetryRun (CompanyData × List PersonDetails) :=
  withRetry _ (fun _ => (doScrape p includeBoard).result) 3
    scrapeRetryableErrors scrapeOnRetryRestarts

/-! ## Browser pool (`src/scraper/browser.ts`)

A context is identified by `id`; `createdAt` is the creation time and
`ageStamp` is the value held in the `contextAge` map — set to the creation
time by `acquireContext` and overwritten with the release time by
`releaseContext`. -/

structure BrowserCtx where
  id : Nat
  createdAt : Nat
  ageStamp : Nat
deriving DecidableEq, Repr

instance : Inhabited BrowserCtx := ⟨⟨0, 0, 0⟩⟩

/-- The pool's `contexts` array (oldest first, `push` appends). -/
structure PoolState where
  contexts : List BrowserCtx
deriving DecidableEq, Repr

def maxContexts : Nat := 3

/-- `maxContextAgeMs` = 600 000 (10 minutes). -/
def maxContextAgeMs : Nat := 600000

/-- `cleanupOldContexts`: close and drop every context whose `contextAge`
entry is more than `maxContextAgeMs` in the past. -/
def cleanupOldContexts (now : Nat) (s : PoolState) : PoolState :=
  ⟨s.contexts.filter (fun c => decide (now - c.ageStamp ≤ maxContextAgeMs))⟩

/-- `acquireContext`: clean up, then create a fresh context (appended, age
stamp = now) while under `maxContexts`, otherwise hand out `contexts[0]`,
the oldest live context. -/
def acquireContext (now newId : Nat) (s : PoolState) :
    PoolState × BrowserCtx :=
  let s1 := cleanupOldContexts now s
  if s1.contexts.length < maxContexts then
    let c : BrowserCtx := ⟨newId, now, now⟩
    (⟨s1.contexts ++ [c]⟩, c)
  else (s1, s1.contexts.headI)

/-- `releaseContext`: keep the context, refresh its `contextAge` entry to
the current time. -/
def releaseContext (now : Nat) (s : PoolState) (c : BrowserCtx) : PoolState :=
  ⟨s.contexts.map (fun x => if x.id = c.id then ⟨x.id, x.createdAt, now⟩ else x)⟩

/-! ## Concrete sample data used by witnesses and counterexamples -/

/-- A minimal cached company record. -/
def sampleCompany : CompanyData where
  org_number := "556631-3788"
  name := "Provbolaget AB"
  legal_form := some "Aktiebolag"
  status := some "Aktivt"
  registration_date := none
  contact := ⟨none, none, none, none, none, none⟩
  tax_info := ⟨true, true, false⟩
  financials := some ⟨some "2023", some 1234000, some 100000, some 80000, some 500000, "SEK"⟩
  industry := ⟨some "62010", some "Datakonsult", some ["IT"], none⟩
  bankgiro_number := none
  has_remarks := false
  remarks := none
  source_url := "https://www.merinfo.se/foretag/x"
  scraped_at := "2020-01-01T00:00:00.000Z"
  updated_at := none

/-- The same company as re-fetched five years later: every identity and
content field differs from `sampleCompany`, including the fetch timestamp. -/
def sampleCompanyRefetched : CompanyData :=
  { sampleCompany with
    name := "Provbolaget Nya AB"
    status := some "Likviderat"
    scraped_at := "2025-01-01T00:00:00.000Z" }

/-- The empty companies table. -/
def emptyCompanies : CompanyTable := fun _ => none

/-- A board member of the sample company. -/
def samplePerson : PersonDetails where
  org_number := "556631-3788"
  name := "Anna Andersson"
  role := "VD"
  personal_number := none
  age := some 52
  phone := none
  address := ⟨some "Storgatan 1", none, some "12345", some "Stockholm"⟩
  profile_url := some "https://www.merinfo.se/person/y"
  scraped_at := some "2020-01-01T00:00:00.000Z"

/-- A search page whose result card carries the flagged/remarked indicator. -/
def flaggedPage : SearchPage :=
  ⟨true, true, true, some "/foretag/x", false, some sampleCompany, []⟩

/-- The search-limit page exactly as the external source renders it: the
quota text is present and no result card renders. -/
def quotaNoResultPage : SearchPage :=
  ⟨false, false, false, none, true, none, []⟩

/-- A page on which a matching result card rendered and the quota signal is
present at the same time. -/
def quotaWithCardPage : SearchPage :=
  ⟨true, true, false, some "/foretag/x", true, some sampleCompany, []⟩

/-- A page on which the entity simply does not exist: results render but no
card matches the queried organisation number. -/
def noMatchPage : SearchPage :=
  ⟨true, false, false, none, false, none, []⟩

/-- An operation that fails with a retryable transient error on attempt 1
and succeeds from attempt 2 on (used against the claim that such a run
restarts the pool exactly once). -/
def transientThenOk : Nat → Except ScrapeFailure Nat := fun attempt =>
  if attempt = 1 then .error .timeout else .ok 42

/-- A second such operation, failing with the retryable `ScraperError`
variant instead. -/
def scraperErrThenOk : Nat → Except ScrapeFailure Nat := fun attempt =>
  if attempt = 1 then .error .searchLimit else .ok 7

/-! ## Claim theorems -/

/-- C1.  The freshness decision returns `Fetch` when no cached record
exists; otherwise it returns `Fetch` exactly when `force_refresh` is set or
the record's age in days strictly exceeds the staleness threshold, and
serves the cached record exactly otherwise. -/
theorem freshness_decision_correct (staleDays : ℚ)
    (cached : Option (CompanyData × ℚ)) (force : Bool) :
    (cached = none → decideFreshness staleDays cached force = .fetch) ∧
    (∀ c age, cached = some (c, age) →
      ((decideFreshness staleDays cached force = .fetch ↔
          force = true ∨ staleDays < age) ∧
        (decideFreshness staleDays cached force = .serve c ↔
          force = false ∧ age ≤ staleDays))) := by
  constructor
  · rintro rfl; rfl
  · rintro c age rfl
    cases force <;> by_cases hq : staleDays < age <;>
      simp [decideFreshness, isCacheStale, hq, ← not_lt]

/-- Witness for C1 at the spec's own examples: threshold 7 days, age 6 days
serves, age 8 days fetches, `force_refresh` at age 0 fetches, and an empty
cache fetches. -/
theorem freshness_decision_correct_witness :
    decideFreshness 7 (some (sampleCompany, 6)) false = .serve sampleCompany ∧
    decideFreshness 7 (some (sampleCompany, 8)) false = .fetch ∧
    decideFreshness 7 (some (sampleCompany, 0)) true = .fetch ∧
    decideFreshness 7 none false = .fetch := by
  refine ⟨?_, ?_, ?_, ?_⟩
  · exact ((freshness_decision_correct 7 (some (sampleCompany, 6)) false).2
      sampleCompany 6 rfl).2.mpr ⟨rfl, by norm_num⟩
  · exact ((freshness_decision_correct 7 (some (sampleCompany, 8)) false).2
      sampleCompany 8 rfl).1.mpr (Or.inr (by norm_num))
  · exact ((freshness_decision_correct 7 (some (sampleCompany, 0)) true).2
      sampleCompany 0 rfl).1.mpr (Or.inl rfl)
  · exact (freshness_decision_correct 7 none false).1 rfl

/-- C2 (code bug).  Saving a re-fetched record over an existing cached row
does NOT overwrite the stored fetch timestamp: the `ON CONFLICT DO UPDATE`
column list omits `scraped_at`, so the re-saved record keeps the old
`scraped_at` while the other fields (here `name`, `status`, `updated_at`)
are taken from the new record — the row is partially patched, and a
subsequent get does not return the newly fetched record. -/
theorem saveCompany_keeps_old_scraped_at :
    ((getCompany
        (saveCompany
          (saveCompany emptyCompanies sampleCompany "2020-01-01T00:00:01.000Z")
          sampleCompanyRefetched "2025-01-01T00:00:01.000Z")
        "556631-3788").map (·.scraped_at)
      = some "2020-01-01T00:00:00.000Z") ∧
    sampleCompanyRefetched.scraped_at = "2025-01-01T00:00:00.000Z" ∧
    ("2020-01-01T00:00:00.000Z" : String) ≠ "2025-01-01T00:00:00.000Z" ∧
    ((getCompany
        (saveCompany
          (saveCompany emptyCompanies sampleCompany "2020-01-01T00:00:01.000Z")
          sampleCompanyRefetched "2025-01-01T00:00:01.000Z")
        "556631-3788").map (·.name)
      = some "Provbolaget Nya AB") := by
  exact ⟨rfl, rfl, by decide, rfl⟩

/-- C3 (code bug).  A fetch whose search result carries the flagged
indicator does terminate with the flagged outcome and never enters the
detail-scrape step, but it is NOT attempted exactly once: the flagged
`ScraperError` is constructed with `retryable := false`, yet `withRetry`
classifies retryability by `error.name` alone and `"ScraperError"` is in the
retryable list, so the operation is attempted all 3 times and the pool is
restarted once on the way. -/
theorem flagged_fetch_is_retried :
    (scrapeCompanyRun flaggedPage true).result = .error .flaggedRemarks ∧
    (doScrape flaggedPage true).enteredDetailScrape = false ∧
    scraperErrorRetryableArg .flaggedRemarks = some false ∧
    scrapeRetryableErrors.contains (errorName .flaggedRemarks) = true ∧
    (scrapeCompanyRun flaggedPage true).attemptsMade = 3 ∧
    (scrapeCompanyRun flaggedPage true).poolRestarts = 1 := by
  exact ⟨rfl, rfl, rfl, rfl, rfl, rfl⟩

/-- The only error `searchCompany` itself throws is the flagged one. -/
lemma searchCompany_error_eq (p : SearchPage) (e : ScrapeFailure)
    (h : searchCompany p = .error e) : e = .flaggedRemarks := by
  unfold searchCompany at h
  split_ifs at h
  · cases h; rfl
  all_goals
    revert h
    cases p.companyLink <;> simp

/-- C4 counterexample.  On the search-limit page as the source actually
renders it (quota text present, no result card), the fetch is reported as
`NotFound`, not `QuotaExceeded`: the `null`-result check precedes the
quota check in `doScrape`. -/
theorem quota_page_reported_not_found :
    quotaNoResultPage.limitTextPresent = true ∧
    (doScrape quotaNoResultPage true).result = .error .noSuchCompany ∧
    (doScrape quotaNoResultPage true).result ≠ .error .searchLimit := by
  refine ⟨rfl, rfl, fun h => ?_⟩
  rw [show (doScrape quotaNoResultPage true).result
      = .error .noSuchCompany from rfl] at h
  injection h with h2
  exact ScrapeFailure.noConfusion h2

/-- C4 amended.  The quota-exceeded outcome is produced exactly when a
matching search result rendered (so `searchCompany` returned a URL) and the
quota signal is present; whenever no matching result renders — in
particular for a nonexistent entity, but also on the quota page itself —
the outcome is `NotFound`, never `QuotaExceeded`.  The quota error is the
retryable `ScraperError`, whose name is in the retry wrapper's retryable
list. -/
theorem quota_classification (p : SearchPage) (includeBoard : Bool) :
    ((doScrape p includeBoard).result = .error .searchLimit ↔
      (∃ u, searchCompany p = .ok (some u)) ∧ p.limitTextPresent = true) ∧
    (searchCompany p = .ok none →
      (doScrape p includeBoard).result = .error .noSuchCompany) ∧
    scraperErrorRetryableArg .searchLimit = some true ∧
    scrapeRetryableErrors.contains (errorName .searchLimit) = true := by
  refine ⟨?_, ?_, rfl, rfl⟩
  · cases h : searchCompany p with
    | error e =>
        have he := searchCompany_error_eq p e h
        subst he
        simp [doScrape, h]
    | ok u =>
        cases u with
        | none => simp [doScrape, h]
        | some url =>
            by_cases hl : p.limitTextPresent = true
            · simp [doScrape, h, hl]
            · cases hd : p.detailData <;> simp [doScrape, h, hl, hd]
  · intro h
    simp [doScrape, h]

/-- Witness for C4 at concrete pages: with a rendered matching card plus the
quota signal the outcome is `QuotaExceeded`; for a nonexistent entity (no
matching card, no quota text) the outcome is `NotFound`. -/
theorem quota_classification_witness :
    (doScrape quotaWithCardPage true).result = .error .searchLimit ∧
    (doScrape noMatchPage true).result = .error .noSuchCompany := by
  constructor
  · exact (quota_classification quotaWithCardPage true).1.mpr
      ⟨⟨"https://www.merinfo.se/foretag/x", by rfl⟩, rfl⟩
  · exact (quota_classification noMatchPage true).2.1 rfl

/-- After `saveBoardMembers` with a non-empty member list whose rows carry
the company's key, the stored people for that company are exactly the
inserted members. -/
lemma getBoardMembers_saveBoardMembers (people : List PersonRow)
    (org : String) (members : List PersonDetails) (now : String)
    (hne : members ≠ []) (hmem : ∀ m ∈ members, m.org_number = org) :
    getBoardMembers (saveBoardMembers people org members now) org =
      members.map (fun m => rowToPerson (personToRow m now)) := by
  unfold saveBoardMembers getBoardMembers
  rw [if_neg (by simpa using hne)]
  have h1 : (people.filter fun r => r.org_number != org).filter
      (fun r => r.org_number == org) = [] := by
    rw [List.filter_eq_nil_iff]
    intro r hr
    have hkeep := List.of_mem_filter hr
    simp only [bne_iff_ne, ne_eq] at hkeep
    simp [hkeep]
  have h2 : (members.map fun m => personToRow m now).filter
      (fun r => r.org_number == org) = members.map fun m => personToRow m now := by
    rw [List.filter_eq_self]
    intro r hr
    rcases List.mem_map.mp hr with ⟨m, hm, rfl⟩
    simp [personToRow, hmem m hm]
  rw [List.filter_append, h1, h2]
  simp [List.map_map]

/-- C5 counterexample.  Through `searchCompanyByOrgNumber`, a successful
fetch that produced zero people (with board data requested) does not touch
the people table — `saveBoardMembers` is guarded by
`board_members.length > 0` — so a previously stored person row survives and
`getBoardMembers` is non-empty afterwards. -/
theorem zero_people_fetch_keeps_rows :
    (searchToolPersist emptyCompanies
        [personToRow samplePerson "2020-01-01T00:00:00.000Z"] "556631-3788"
        true sampleCompanyRefetched [] "2025-01-01T00:00:01.000Z").2
      = [personToRow samplePerson "2020-01-01T00:00:00.000Z"] ∧
    getBoardMembers
        (searchToolPersist emptyCompanies
          [personToRow samplePerson "2020-01-01T00:00:00.000Z"] "556631-3788"
          true sampleCompanyRefetched [] "2025-01-01T00:00:01.000Z").2
        "556631-3788"
      ≠ [] := by
  exact ⟨rfl, by decide⟩

/-- C5 amended.  The tool's persistence step leaves the people table
untouched when the fetched member list is empty, and fully replaces the
company's rows (delete-then-insert) when it is non-empty; the
delete-then-insert semantics live in `saveBoardMembers`, which on an empty
list would clear the rows — the skip happens in the tool layer. -/
theorem board_rows_full_replace (companies : CompanyTable)
    (people : List PersonRow) (org : String) (c : CompanyData)
    (members : List PersonDetails) (now : String) :
    ((searchToolPersist companies people org true c [] now).2 = people) ∧
    (members ≠ [] → (∀ m ∈ members, m.org_number = org) →
      getBoardMembers
          (searchToolPersist companies people org true c members now).2 org
        = members.map (fun m => rowToPerson (personToRow m now))) ∧
    (saveBoardMembers people org [] now
      = people.filter (fun r => r.org_number != org)) := by
  refine ⟨rfl, ?_, rfl⟩
  intro hne hmem
  unfold searchToolPersist
  rw [if_pos ⟨rfl, List.length_pos.mpr hne⟩]
  exact getBoardMembers_saveBoardMembers people org members now hne hmem

/-- Witness for C5 at a concrete non-empty fetch: the stored people after
the tool's persistence step are exactly the fetched member. -/
theorem board_rows_full_replace_witness :
    getBoardMembers
        (searchToolPersist emptyCompanies
          [personToRow samplePerson "2020-01-01T00:00:00.000Z"] "556631-3788"
          true sampleCompanyRefetched [samplePerson]
          "2025-01-01T00:00:01.000Z").2
        "556631-3788"
      = [rowToPerson (personToRow samplePerson "2025-01-01T00:00:01.000Z")] := by
  exact (board_rows_full_replace emptyCompanies
      [personToRow samplePerson "2020-01-01T00:00:00.000Z"] "556631-3788"
      sampleCompanyRefetched [samplePerson] "2025-01-01T00:00:01.000Z").2.1
    (by simp) (by intro m hm; simp only [List.mem_singleton] at hm; subst hm; rfl)

/-- C6 counterexample.  An operation that fails with a retryable transient
error on attempt 1 and succeeds on attempt 2 does yield overall success with
the second attempt's data, but the pool's `restart` is invoked zero times,
not once: `onRetry` fires with the failed attempt number, and the restart is
guarded by `attempt >= 2`, so the first restart can only happen after a
second failure. -/
theorem second_attempt_success_restarts_zero :
    (withRetry Nat transientThenOk 3 scrapeRetryableErrors
        scrapeOnRetryRestarts).result = .ok 42 ∧
    (withRetry Nat transientThenOk 3 scrapeRetryableErrors
        scrapeOnRetryRestarts).attemptsMade = 2 ∧
    (withRetry Nat transientThenOk 3 scrapeRetryableErrors
        scrapeOnRetryRestarts).poolRestarts = 0 ∧
    (withRetry Nat transientThenOk 3 scrapeRetryableErrors
        scrapeOnRetryRestarts).poolRestarts ≠ 1 := by
  exact ⟨rfl, rfl, rfl, by decide⟩

/-- C6 amended.  For every operation that fails retryably on the first
attempt and succeeds on the second, the `scrapeCompany` retry configuration
yields overall success with the second attempt's data after exactly two
invocations — and zero pool restarts; the restart signal first fires when
the second attempt also fails. -/
theorem retry_second_attempt_success_no_restart (α : Type)
    (op : Nat → Except ScrapeFailure α) (e : ScrapeFailure) (v : α)
    (h1 : op 1 = .error e)
    (hr : scrapeRetryableErrors.contains (errorName e) = true)
    (h2 : op 2 = .ok v) :
    (withRetry α op 3 scrapeRetryableErrors scrapeOnRetryRestarts).result
        = .ok v ∧
    (withRetry α op 3 scrapeRetryableErrors
        scrapeOnRetryRestarts).attemptsMade = 2 ∧
    (withRetry α op 3 scrapeRetryableErrors
        scrapeOnRetryRestarts).poolRestarts = 0 := by
  have hstep : withRetry α op 3 scrapeRetryableErrors scrapeOnRetryRestarts
      = ⟨.ok v, 2, 0⟩ := by
    simp only [withRetry, withRetryAux, h1, h2, hr]
    norm_num [scrapeOnRetryRestarts]
  rw [hstep]
  exact ⟨rfl, rfl, rfl⟩

/-- Witness for C6 at a concrete operation failing once with the retryable
`ScraperError`. -/
theorem retry_second_attempt_success_no_restart_witness :
    (withRetry Nat scraperErrThenOk 3 scrapeRetryableErrors
        scrapeOnRetryRestarts).result = .ok 7 ∧
    (withRetry Nat scraperErrThenOk 3 scrapeRetryableErrors
        scrapeOnRetryRestarts).attemptsMade = 2 ∧
    (withRetry Nat scraperErrThenOk 3 scrapeRetryableErrors
        scrapeOnRetryRestarts).poolRestarts = 0 := by
  exact retry_second_attempt_success_no_restart Nat scraperErrThenOk
    .searchLimit 7 rfl rfl rfl

/-- C7 counterexample.  Session age is not measured from the session's
creation timestamp: `releaseContext` refreshes the `contextAge` entry, so a
context created at t=0, released at t=540000 and present at an acquire at
t=660000 survives the eviction sweep although 660000ms have passed since its
creation — more than the 600000ms maximum age. -/
theorem released_session_outlives_creation_age :
    maxContextAgeMs = 600000 ∧
    ((⟨0, 0, 540000⟩ : BrowserCtx) ∈
      (acquireContext 660000 1
        (releaseContext 540000 (acquireContext 0 0 ⟨[]⟩).1
          (acquireContext 0 0 ⟨[]⟩).2)).1.contexts) ∧
    maxContextAgeMs < 660000 - (0 : Nat) := by
  exact ⟨rfl, by decide, by decide⟩

/-- C7 amended.  After every `acquire` on a pool holding at most 3 live
sessions, the pool still holds at most 3 live sessions, and no session whose
time since its `contextAge` stamp (set at creation and refreshed on each
release) exceeds the 10-minute maximum remains — any such session was
closed and removed before the acquired session is handed out. -/
theorem acquire_pool_invariant (s : PoolState) (now newId : Nat)
    (h : s.contexts.length ≤ maxContexts) :
    (acquireContext now newId s).1.contexts.length ≤ maxContexts ∧
    ∀ c ∈ (acquireContext now newId s).1.contexts,
      now - c.ageStamp ≤ maxContextAgeMs := by
  have hmemclean : ∀ c ∈ (cleanupOldContexts now s).contexts,
      now - c.ageStamp ≤ maxContextAgeMs := by
    intro c hc
    have hc' : c ∈ s.contexts.filter
        (fun c => decide (now - c.ageStamp ≤ maxContextAgeMs)) := hc
    exact of_decide_eq_true (List.mem_filter.mp hc').2
  have hlen : (cleanupOldContexts now s).contexts.length ≤ s.contexts.length :=
    List.length_filter_le _ _
  simp only [acquireContext]
  split_ifs with hlt
  · constructor
    · simpa using Nat.succ_le_of_lt hlt
    · intro c hc
      rcases List.mem_append.mp hc with hc | hc
      · exact hmemclean c hc
      · rcases List.mem_singleton.mp hc with rfl
        simp
  · exact ⟨le_trans hlen h, hmemclean⟩

/-- Witness for C7: acquiring on the empty pool at a concrete time keeps
the bound and the age invariant. -/
theorem acquire_pool_invariant_witness :
    (acquireContext 5 0 ⟨[]⟩).1.contexts.length ≤ maxContexts ∧
    ∀ c ∈ (acquireContext 5 0 ⟨[]⟩).1.contexts,
      5 - c.ageStamp ≤ maxContextAgeMs := by
  exact acquire_pool_invariant ⟨[]⟩ 5 0 (by decide)

/-- C8 counterexample.  The ±25% jitter is applied after clamping to the
ceiling, so it can push the delay beyond the ceiling: at attempt 5 the
clamped base is 30000ms and the jitter draw 0.9 yields 36000ms > 30000ms —
the attempt-5 delay is not capped at 30000ms. -/
theorem attempt5_jitter_exceeds_ceiling :
    (0 : ℚ) ≤ 9 / 10 ∧ (9 / 10 : ℚ) ≤ 1 ∧
    defaultGetDelay 5 (9 / 10) = 36000 ∧
    (30000 : ℚ) < defaultGetDelay 5 (9 / 10) := by
  refine ⟨by norm_num, by norm_num, ?_, ?_⟩
  · norm_num [defaultGetDelay, getDelay]
  · norm_num [defaultGetDelay, getDelay]

/-- C8 amended.  With initial delay 2000ms, multiplier 2, ceiling 30000ms
and jitter on, every jitter draw in [0,1] puts the attempt-1 delay in
[1500, 2500]ms; the exponential delay is clamped to the ceiling before
jitter, so the attempt-5 delay lies within ±25% of the ceiling — in
[22500, 37500]ms, not below 30000ms — and only the jitter-free delay is
bounded by 30000ms at every attempt. -/
theorem backoff_delay_bounds (r : ℚ) (h0 : 0 ≤ r) (h1 : r ≤ 1) :
    (1500 ≤ defaultGetDelay 1 r ∧ defaultGetDelay 1 r ≤ 2500) ∧
    (22500 ≤ defaultGetDelay 5 r ∧ defaultGetDelay 5 r ≤ 37500) ∧
    (∀ attempt : Nat, getDelay 2000 30000 2 false attempt r ≤ 30000) := by
  have base1 : min ((2000:ℚ) * 2 ^ (1 - 1 : Nat)) 30000 = 2000 := by
    rw [min_eq_left (by norm_num)]
    norm_num
  have base5 : min ((2000:ℚ) * 2 ^ (5 - 1 : Nat)) 30000 = 30000 := by
    rw [min_eq_right (by norm_num)]
  have d1 : defaultGetDelay 1 r
      = max 0 (2000 + (r * (2000 * (1 / 4)) * 2 - 2000 * (1 / 4))) := by
    simp only [defaultGetDelay, getDelay, base1, Bool.true_eq_false, if_false]
  have d5 : defaultGetDelay 5 r
      = max 0 (30000 + (r * (30000 * (1 / 4)) * 2 - 30000 * (1 / 4))) := by
    simp only [defaultGetDelay, getDelay, base5, Bool.true_eq_false, if_false]
  refine ⟨⟨?_, ?_⟩, ⟨?_, ?_⟩, ?_⟩
  · rw [d1, max_eq_right (by nlinarith)]
    nlinarith
  · rw [d1]
    exact max_le (by norm_num) (by nlinarith)
  · rw [d5, max_eq_right (by nlinarith)]
    nlinarith
  · rw [d5]
    exact max_le (by norm_num) (by nlinarith)
  · intro attempt
    simp only [getDelay]
    norm_num

/-- Witness for C8 at the jitter draw 1/2 (no displacement): attempt 1
gives a delay in [1500,2500] and attempt 5 a delay in [22500,37500]. -/
theorem backoff_delay_bounds_witness :
    ((1500 : ℚ) ≤ defaultGetDelay 1 (1 / 2) ∧
      defaultGetDelay 1 (1 / 2) ≤ 2500) ∧
    ((22500 : ℚ) ≤ defaultGetDelay 5 (1 / 2) ∧
      defaultGetDelay 5 (1 / 2) ≤ 37500) ∧
    (∀ attempt : Nat, getDelay 2000 30000 2 false attempt (1 / 2) ≤ 30000) := by
  exact backoff_delay_bounds (1 / 2) (by norm_num) (by norm_num)

/-- Characters kept by the regex: an accepted input splits into six digits,
then an optional hyphen, then four digits. -/
lemma orgRegexMatch_split (s : List Char) (h : orgRegexMatch s = true) :
    ∃ A B : List Char, A.length = 6 ∧ B.length = 4 ∧
      (∀ c ∈ A, c.isDigit = true) ∧ (∀ c ∈ B, c.isDigit = true) ∧
      (s = A ++ B ∨ s = A ++ '-' :: B) := by
  simp only [orgRegexMatch, Bool.or_eq_true, Bool.and_eq_true, beq_iff_eq,
    List.all_eq_true] at h
  rcases h with ⟨⟨h6, h4⟩, hlen⟩ | ⟨⟨⟨h6, hdash⟩, h4⟩, hlen⟩
  · refine ⟨s.take 6, s.drop 6, ?_, ?_, h6, h4,
      Or.inl (List.take_append_drop 6 s).symm⟩
    · rw [List.length_take, hlen]
      decide
    · rw [List.length_drop, hlen]
  · have hd6 : s.drop 6 = '-' :: s.drop 7 := by
      have h0 := List.take_append_drop 1 (s.drop 6)
      rw [hdash, List.drop_drop] at h0
      exact h0.symm
    refine ⟨s.take 6, s.drop 7, ?_, ?_, h6, h4, Or.inr ?_⟩
    · rw [List.length_take, hlen]
      decide
    · rw [List.length_drop, hlen]
    · conv_lhs => rw [← List.take_append_drop 6 s]
      rw [hd6]

lemma keptDigits_append_digits (A B : List Char)
    (hA : ∀ c ∈ A, c.isDigit = true) (hB : ∀ c ∈ B, c.isDigit = true) :
    keptDigits (A ++ B) = A ++ B ∧ keptDigits (A ++ '-' :: B) = A ++ B := by
  have hfA : A.filter Char.isDigit = A := List.filter_eq_self.mpr hA
  have hfB : B.filter Char.isDigit = B := List.filter_eq_self.mpr hB
  constructor
  · rw [keptDigits, List.filter_append, hfA, hfB]
  · rw [keptDigits, List.filter_append, hfA,
      List.filter_cons_of_neg (by decide), hfB]

lemma schema_canonical (A B : List Char) (hA6 : A.length = 6)
    (hB4 : B.length = 4) (hA : ∀ c ∈ A, c.isDigit = true)
    (hB : ∀ c ∈ B, c.isDigit = true) :
    OrgNumberSchema (String.mk (A ++ '-' :: B))
      = some (String.mk (A ++ '-' :: B)) := by
  have htake : (A ++ '-' :: B).take 6 = A := by
    conv_lhs => rw [← hA6]
    exact List.take_left A ('-' :: B)
  have hdrop : (A ++ '-' :: B).drop 6 = '-' :: B := by
    conv_lhs => rw [← hA6]
    exact List.drop_left A ('-' :: B)
  have hdrop7 : (A ++ '-' :: B).drop 7 = B := by
    rw [show (7:Nat) = 6 + 1 from rfl, ← List.drop_drop, hdrop]
    rfl
  have hlen : (A ++ '-' :: B).length = 11 := by
    simp [hA6, hB4]
  have hmatch : orgRegexMatch (A ++ '-' :: B) = true := by
    simp [orgRegexMatch, htake, hdrop, hdrop7, hlen, List.all_eq_true]
    exact ⟨hA, hB⟩
  have hkept : keptDigits (A ++ '-' :: B) = A ++ B :=
    (keptDigits_append_digits A B hA hB).2
  have htrans : orgTransform (A ++ '-' :: B) = A ++ '-' :: B := by
    simp only [orgTransform, hkept]
    conv_lhs => rw [← hA6]
    rw [List.take_left, List.drop_left]
  show OrgNumberSchema ⟨A ++ '-' :: B⟩ = _
  rw [OrgNumberSchema]
  simp [hmatch, htrans]

theorem org_schema_normalization :
    OrgNumberSchema "5566313788" = some "556631-3788" ∧
    OrgNumberSchema "556631-3788" = some "556631-3788" ∧
    OrgNumberSchema "12345" = none ∧
    (∀ s : String, OrgNumberSchema s ≠ none → (keptDigits s.data).length = 10) ∧
    (∀ s t : String, OrgNumberSchema s = some t → OrgNumberSchema t = some t) := by
  refine ⟨by decide, by decide, by decide, ?_, ?_⟩
  · intro s hs
    have hm : orgRegexMatch s.data = true := by
      by_contra hm
      exact hs (by simp [OrgNumberSchema, hm])
    rcases orgRegexMatch_split s.data hm with
      ⟨A, B, hA6, hB4, hA, hB, hcase | hcase⟩
    · rw [hcase, (keptDigits_append_digits A B hA hB).1,
        List.length_append, hA6, hB4]
    · rw [hcase, (keptDigits_append_digits A B hA hB).2,
        List.length_append, hA6, hB4]
  · intro s t h
    have hm : orgRegexMatch s.data = true := by
      by_contra hm
      simp [OrgNumberSchema, hm] at h
    have ht : t = String.mk (orgTransform s.data) := by
      rw [OrgNumberSchema, if_pos hm] at h
      exact (Option.some.inj h).symm
    rcases orgRegexMatch_split s.data hm with
      ⟨A, B, hA6, hB4, hA, hB, hcase | hcase⟩
    · have htr : orgTransform s.data = A ++ '-' :: B := by
        simp only [orgTransform, hcase, (keptDigits_append_digits A B hA hB).1]
        conv_lhs => rw [← hA6]
        rw [List.take_left, List.drop_left]
      rw [ht, htr]
      exact schema_canonical A B hA6 hB4 hA hB
    · have htr : orgTransform s.data = A ++ '-' :: B := by
        simp only [orgTransform, hcase, (keptDigits_append_digits A B hA hB).2]
        conv_lhs => rw [← hA6]
        rw [List.take_left, List.drop_left]
      rw [ht, htr]
      exact schema_canonical A B hA6 hB4 hA hB

/-- C9 counterexample.  The input `"556631 3788"` reduces to exactly 10
digits once the non-digit is removed, and the scraper-side
`normalizeOrgNumber` does normalize it to canonical form, yet
`OrgNumberSchema` — the validation every tool input passes through —
rejects it: extraneous characters are a validation failure there, not
normalized away. -/
theorem ten_digit_input_with_space_rejected :
    (keptDigits ("556631 3788" : String).data).length = 10 ∧
    OrgNumberSchema "556631 3788" = none ∧
    normalizeOrgNumber "556631 3788" = some "556631-3788" := by
  exact ⟨by decide, by decide, by decide⟩

/-- Witness for C9: the accepted input `"5566313788"` has exactly 10 kept
digits, and the canonical form maps to itself. -/
theorem org_schema_normalization_witness :
    (keptDigits ("5566313788" : String).data).length = 10 ∧
    OrgNumberSchema "556631-3788" = some "556631-3788" := by
  constructor
  · exact org_schema_normalization.2.2.2.1 "5566313788" (by decide)
  · exact org_schema_normalization.2.2.2.2 "5566313788" "556631-3788" (by decide)

/-- C10.  For every company record saved to the cache (fresh insert or
conflict update alike), a subsequent get returns a financial snapshot if and
only if the record's revenue metric is present and non-zero — `saveCompany`
stores `revenue || null` (absent, null and 0 all become NULL) and
`rowToCompany` rebuilds the snapshot only when the stored revenue is truthy
— while the period and the other financial metrics are stored in the row
regardless. -/
theorem financials_roundtrip_iff_revenue_nonzero (table : CompanyTable)
    (c : CompanyData) (now : String) :
    (((getCompany (saveCompany table c now) c.org_number).bind
        (·.financials)).isSome ↔
      ∃ f r, c.financials = some f ∧ f.revenue = some r ∧ r ≠ 0) ∧
    ((saveCompany table c now c.org_number).map (·.financial_period)
      = some (jsStrOrNull (c.financials.bind (·.period)))) ∧
    ((saveCompany table c now c.org_number).map (·.net_profit)
      = some (jsIntOrNull (c.financials.bind (·.net_profit)))) ∧
    ((saveCompany table c now c.org_number).map (·.total_assets)
      = some (jsIntOrNull (c.financials.bind (·.total_assets)))) := by
  rcases h : table c.org_number with _ | old <;>
    rcases hf : c.financials with _ | f <;>
      simp [saveCompany, getCompany, h, hf, rowToCompany, upsertCompanyRow,
        companyToRow, jsTruthyInt, jsIntOrNull, jsStrOrNull]
  · rcases hr : f.revenue with _ | r
    · simp [hr]
    · by_cases hr0 : r = 0 <;> simp [hr, hr0]
  · rcases hr : f.revenue with _ | r
    · simp [hr]
    · by_cases hr0 : r = 0 <;> simp [hr, hr0]

end Merinfo
